import Mathlib

/-!
Verification of the realtime-trading-signals core engine.

The definitions below are a shallow embedding of the Python sources:

* `src/ivan/enhanced/full_laa_eva_system_standalone.py`
  (`AdvancedDslExecutor._get_value`, `_evaluate_condition`,
  `_evaluate_condition_group`, `generate_signals`, and
  `TechnicalIndicators.rsi`),
* `src/api/index.py` (`TechnicalIndicators.rsi`),
* `src/ivan/enhanced/portfolio_corrected_options.py`
  (`OptionInstrument`, `OPTION_INSTRUMENTS`, `PortfolioConfig`,
  `OptionPosition.calculate_pnl`, `TradeLog`, and the
  `CorrectedPortfolioBacktester` methods).

Modelling choices:

* Python floats are embedded as exact rationals; none of the claims under
  consideration concerns binary rounding.  The one place where IEEE special
  values are semantically relevant (the pandas RSI pipeline dividing by an
  average loss of zero) is embedded with an explicit value domain `PdVal`
  carrying `nan` and `inf`.
* ISO-8601 timestamps, which the source compares lexicographically (which for
  its fixed format is chronological order), are embedded as natural numbers
  counted in days; `trade_date = current_time[:10]` becomes the timestamp
  itself, and an instrument expiry is entry time plus `duration_days`.
* A missing or NaN entry of a pandas row is `Option.none`; a row is a map
  from column names to optional values.
* `uuid.uuid4()` draws are embedded as an external stream `ids : ℕ → α`
  consumed one draw per opened position (`next_id` counts the draws); the
  source's `_resolve_value` raises on an undefined `@constant`, a case none
  of the theorems below exercises (the embedding returns a missing value
  there).
* Python `str.lower`/`str.upper` on the ASCII operator tokens are embedded
  as character-wise `Char.toLower`/`Char.toUpper`.
-/

/-! ## DSL executor: operands, rows and conditions
(`full_laa_eva_system_standalone.py`, `AdvancedDslExecutor`) -/

/-- A pandas row, read by column name; `none` is a missing column or NaN. -/
def Row : Type := String → Option ℚ

/-- The row every lookup of an out-of-range index would see; used only as the
`List.getD` fallback, mirroring that the source never reads it. -/
def default_row : Row := fun _ => none

/-- Python `str.lower`, character-wise (the operator tokens are ASCII). -/
def py_lower (s : String) : String := String.mk (s.data.map Char.toLower)

/-- Python `str.upper`, character-wise (the group operators are ASCII). -/
def py_upper (s : String) : String := String.mk (s.data.map Char.toUpper)

/-- An operand of a condition: `series1` is a string (column or `@constant`
reference); `series2_or_value` may also be a numeric literal. -/
inductive Operand where
  | str (s : String)
  | num (v : ℚ)
deriving DecidableEq

/-- Embeds `AdvancedDslExecutor._get_value` (with `_resolve_value` for
`@`-prefixed names): a constant reference reads the constants table, any
other string reads the row (missing column gives NaN, i.e. `none`), and a
literal is returned as-is. -/
def get_value (constants : String → Option ℚ) (x : Operand) (row : Row) : Option ℚ :=
  match x with
  | .str s =>
      match s.data with
      | c :: _ => if c = '@' then constants (String.mk (s.data.drop 1)) else row s
      | [] => row s
  | .num v => some v

/-- A condition dict: `(series1, operator, series2_or_value)` plus the
optional explicit bounds read by `is_between`/`is_not_between`. -/
structure Condition where
  series1 : Operand
  operator : String
  series2_or_value : Operand
  lower_bound : Option ℚ := none
  upper_bound : Option ℚ := none
deriving DecidableEq

/-- Embeds `AdvancedDslExecutor._evaluate_condition`: any undefined operand
makes the condition false; comparison operators are standard (`==`/`!=` are
embedded as exact equality, the rational idealization of `np.isclose`);
`crosses_above`/`crosses_below` and `is_rising`/`is_falling` read the
previous row and are false at index 0 or on an undefined previous value;
`is_between`/`is_not_between` default their bounds to `val2 ∓ 10`;
an unsupported operator falls through to false. -/
def evaluate_condition (constants : String → Option ℚ) (c : Condition)
    (row : Row) (df : List Row) (idx : ℕ) : Bool :=
  let op := py_lower c.operator
  match get_value constants c.series1 row, get_value constants c.series2_or_value row with
  | some v1, some v2 =>
      if op = ">" then decide (v1 > v2)
      else if op = "<" then decide (v1 < v2)
      else if op = ">=" then decide (v1 ≥ v2)
      else if op = "<=" then decide (v1 ≤ v2)
      else if op = "==" then decide (v1 = v2)
      else if op = "!=" then decide (v1 ≠ v2)
      else if op = "crosses_above" ∨ op = "crosses_below" then
        if idx < 1 then false
        else
          let prev_row := df.getD (idx - 1) default_row
          match get_value constants c.series1 prev_row,
                get_value constants c.series2_or_value prev_row with
          | some p1, some p2 =>
              if op = "crosses_above" then decide (p1 ≤ p2 ∧ v1 > v2)
              else decide (p1 ≥ p2 ∧ v1 < v2)
          | some _, none => false
          | none, _ => false
      else if op = "is_rising" ∨ op = "is_falling" then
        if idx < 1 then false
        else
          let prev_row := df.getD (idx - 1) default_row
          match get_value constants c.series1 prev_row with
          | some p1 => if op = "is_rising" then decide (v1 > p1) else decide (v1 < p1)
          | none => false
      else if op = "is_between" then
        let lower := c.lower_bound.getD (v2 - 10)
        let upper := c.upper_bound.getD (v2 + 10)
        decide (lower ≤ v1 ∧ v1 ≤ upper)
      else if op = "is_not_between" then
        let lower := c.lower_bound.getD (v2 - 10)
        let upper := c.upper_bound.getD (v2 + 10)
        decide (¬(lower ≤ v1 ∧ v1 ≤ upper))
      else false
  | some _, none => false
  | none, _ => false

/-- A condition group: an `AND`/`OR` operator over an ordered condition list. -/
structure ConditionGroup where
  operator : String
  conditions : List Condition
deriving DecidableEq

/-- Embeds `AdvancedDslExecutor._evaluate_condition_group`: an empty
condition list is false; every member is evaluated and combined with
`all` for `AND`, `any` for `OR`; an unrecognized operator is false. -/
def evaluate_condition_group (constants : String → Option ℚ) (g : ConditionGroup)
    (row : Row) (df : List Row) (idx : ℕ) : Bool :=
  let op := py_upper g.operator
  if g.conditions.isEmpty then false
  else
    let results := g.conditions.map (fun c => evaluate_condition constants c row df idx)
    if op = "AND" then results.all id
    else if op = "OR" then results.any id
    else false

/-- The action a rule emits when its group is true (the fields the signal
loop reads: `strength` and `profit_cap_pct`). -/
structure DslAction where
  strength : ℤ
  profit_cap_pct : ℚ
deriving DecidableEq

/-- A signal rule: name, condition group and action. -/
structure SignalRule where
  rule_name : String
  conditions_group : ConditionGroup
  action_on_true : DslAction
deriving DecidableEq

/-- The strategy DSL as the signal loop reads it: a constants table, the
ordered rule list, and `default_action_on_no_match`. -/
structure StrategyDsl where
  constants : String → Option ℚ
  signal_rules : List SignalRule
  default_action : DslAction

/-- One emitted `OptionsSignal` (the deterministic fields: the embedding
omits the constant `strategy_id`, and the timestamp is the row index). -/
structure OptionsSignal where
  signal : ℤ
  profit_cap_pct : ℚ
  last_close : Option ℚ
  rule_triggered : String
deriving DecidableEq

/-- The inner rule loop of `generate_signals`: scan the rules in declared
order and stop at the first whose group evaluates true. -/
def first_matching_rule (constants : String → Option ℚ) :
    List SignalRule → Row → List Row → ℕ → Option SignalRule
  | [], _, _, _ => none
  | r :: rest, row, df, idx =>
      if evaluate_condition_group constants r.conditions_group row df idx then some r
      else first_matching_rule constants rest row df idx

/-- The per-row body of `generate_signals`: the first matching rule's action,
else the default action tagged `DEFAULT`. -/
def signal_at (dsl : StrategyDsl) (df : List Row) (idx : ℕ) : OptionsSignal :=
  let row := df.getD idx default_row
  match first_matching_rule dsl.constants dsl.signal_rules row df idx with
  | some r =>
      { signal := r.action_on_true.strength
        profit_cap_pct := r.action_on_true.profit_cap_pct
        last_close := row ("close")
        rule_triggered := r.rule_name }
  | none =>
      { signal := dsl.default_action.strength
        profit_cap_pct := dsl.default_action.profit_cap_pct
        last_close := row ("close")
        rule_triggered := "DEFAULT" }

/-- Embeds `AdvancedDslExecutor.generate_signals`, one emitted signal per
row of the indicator-extended frame (`_calculate_indicators` is dataframe
plumbing: `df` here already carries the indicator columns the conditions
read). -/
def generate_signals (dsl : StrategyDsl) (df : List Row) : List OptionsSignal :=
  (List.range df.length).map (signal_at dsl df)

/-! ## RSI, deque variant (`src/api/index.py`, `TechnicalIndicators.rsi`) -/

/-- Consecutive differences, `np.diff`. -/
def diffs : List ℚ → List ℚ
  | [] => []
  | [_] => []
  | a :: b :: rest => (b - a) :: diffs (b :: rest)

namespace ApiIndicators

/-- The trailing `period + 1` prices the deque RSI reads
(`list(prices)[-period-1:]`). -/
def last_window (prices : List ℚ) (period : ℕ) : List ℚ :=
  prices.drop (prices.length - (period + 1))

/-- Average gain over the trailing window. -/
def window_avg_gain (prices : List ℚ) (period : ℕ) : ℚ :=
  let deltas := diffs (last_window prices period)
  let gains := deltas.map (fun d => if d > 0 then d else 0)
  gains.sum / (gains.length : ℚ)

/-- Average loss over the trailing window. -/
def window_avg_loss (prices : List ℚ) (period : ℕ) : ℚ :=
  let deltas := diffs (last_window prices period)
  let losses := deltas.map (fun d => if d < 0 then -d else 0)
  losses.sum / (losses.length : ℚ)

/-- Embeds `TechnicalIndicators.rsi` of `src/api/index.py`: neutral 50 on an
unfilled window; explicit 100 when the average loss is zero; otherwise
`100 − 100/(1+RS)`. -/
def rsi (prices : List ℚ) (period : ℕ) : ℚ :=
  if prices.length < period + 1 then 50
  else
    let avg_gain := window_avg_gain prices period
    let avg_loss := window_avg_loss prices period
    if avg_loss = 0 then 100
    else 100 - 100 / (1 + avg_gain / avg_loss)

end ApiIndicators

/-! ## RSI, pandas variant (`full_laa_eva_system_standalone.py`,
`TechnicalIndicators.rsi`) -/

/-- The value domain of the pandas float pipeline: a number, positive
infinity (from `x/0` with `x > 0`), or NaN (missing value or `0/0`). -/
inductive PdVal where
  | nan
  | inf
  | val (q : ℚ)
deriving DecidableEq

namespace StandaloneIndicators

/-- The `series.diff()` entry at row `i`: NaN at row 0. -/
def delta (prices : List ℚ) (i : ℕ) : Option ℚ :=
  if i = 0 ∨ prices.length ≤ i then none
  else some (prices.getD i 0 - prices.getD (i - 1) 0)

/-- The entry of `delta.where(delta > 0, 0)` at row `i`: the NaN at row 0
fails the condition and is replaced by 0. -/
def gain_raw (prices : List ℚ) (i : ℕ) : ℚ :=
  match delta prices i with
  | some d => if d > 0 then d else 0
  | none => 0

/-- The entry of `(-delta.where(delta < 0, 0))` at row `i`: again the NaN at
row 0 is replaced by 0 before negation. -/
def loss_raw (prices : List ℚ) (i : ℕ) : ℚ :=
  match delta prices i with
  | some d => if d < 0 then -d else 0
  | none => 0

/-- A `rolling(window=period).mean()` entry: defined from row `period − 1`
on (pandas defaults `min_periods` to the window size), the mean of the
trailing `period` entries. -/
def rolling_mean (f : ℕ → ℚ) (period : ℕ) (len : ℕ) (i : ℕ) : Option ℚ :=
  if i < len ∧ period ≤ i + 1 then
    some ((((List.range period).map (fun j => f (i - j))).sum) / (period : ℚ))
  else none

/-- The `rs = gain / loss` entry at row `i`, with IEEE division semantics:
`g/0` is `+inf` for `g > 0` and NaN for `g = 0` (rolling gains and losses
are never negative). -/
def rs_at (prices : List ℚ) (period i : ℕ) : PdVal :=
  match rolling_mean (gain_raw prices) period prices.length i,
        rolling_mean (loss_raw prices) period prices.length i with
  | some g, some l =>
      if l = 0 then (if g = 0 then .nan else .inf)
      else .val (g / l)
  | some _, none => .nan
  | none, _ => .nan

/-- The `rsi = 100 − 100/(1+rs)` entry at row `i`: NaN propagates, and an
infinite RS gives exactly 100 (`100/(1+inf) = 0`). -/
def rsi_at (prices : List ℚ) (period i : ℕ) : PdVal :=
  match rs_at prices period i with
  | .nan => .nan
  | .inf => .val 100
  | .val r => .val (100 - 100 / (1 + r))

end StandaloneIndicators

/-! ## Option portfolio backtester (`portfolio_corrected_options.py`) -/

/-- An option instrument of the fixed catalog. -/
structure OptionInstrument where
  name : String
  duration_days : ℕ
  profit_cap_pct : ℚ
  premium_cost_pct : ℚ
deriving DecidableEq

/-- Embeds the `OPTION_INSTRUMENTS` dict: the four-instrument catalog, read
by key. -/
def OPTION_INSTRUMENTS (key : String) : Option OptionInstrument :=
  if key = "3D_5PCT" then some ⟨"3D_5PCT", 3, 5, 22 / 10⟩
  else if key = "3D_10PCT" then some ⟨"3D_10PCT", 3, 10, 26 / 10⟩
  else if key = "7D_5PCT" then some ⟨"7D_5PCT", 7, 5, 28 / 10⟩
  else if key = "7D_10PCT" then some ⟨"7D_10PCT", 7, 10, 28 / 10⟩
  else none

/-- A trading signal consumed by the backtester. -/
structure Signal where
  timestamp : ℕ
  signal : ℤ
  strength : ℤ
  instrument : String
  reason : String := ""
  expected_move : ℚ := 0
  entry_price : ℚ := 0
deriving DecidableEq

/-- The portfolio configuration (`PortfolioConfig`), premium percentages of
capital plus the drawdown and concurrency limits. -/
structure PortfolioConfig where
  initial_capital_eth : ℚ := 10
  premium_per_trade_pct : ℚ := 5
  max_daily_premium_pct : ℚ := 15
  max_total_premium_pct : ℚ := 30
  max_concurrent_positions : ℕ := 10
  max_drawdown_pct : ℚ := 25
deriving DecidableEq

/-- Embeds `PortfolioConfig.get_premium_budget_eth`: the smaller of the
remaining total-premium budget and the per-trade limit, both measured
against the capital passed in. -/
def PortfolioConfig.get_premium_budget_eth (cfg : PortfolioConfig)
    (capital existing_premiums : ℚ) : ℚ :=
  let max_total_premium := capital * (cfg.max_total_premium_pct / 100)
  let remaining_budget := max_total_premium - existing_premiums
  let per_trade_limit := capital * (cfg.premium_per_trade_pct / 100)
  min remaining_budget per_trade_limit

/-- An active option position; `α` is the type of the uuid draws that name
positions (`str(uuid.uuid4())[:8]` in the source). -/
structure OptionPosition (α : Type) where
  position_id : α
  entry_time : ℕ
  expiry_time : ℕ
  instrument_name : String
  is_call : Bool
  entry_price : ℚ
  nominal_eth : ℚ
  premium_paid_eth : ℚ
  profit_cap_pct : ℚ
  signal_strength : ℤ
  reason : String := ""
deriving DecidableEq

/-- The dictionary `OptionPosition.calculate_pnl` returns. -/
structure PnlResult where
  price_move_pct : ℚ
  capped_move_pct : ℚ
  payout_eth : ℚ
  net_pnl_eth : ℚ
  return_on_premium_pct : ℚ
  win : Bool
deriving DecidableEq

/-- Embeds `OptionPosition.calculate_pnl`: favorable-direction move, clamp
into `[0, profit_cap_pct]`, payout from nominal, net of the premium. -/
def OptionPosition.calculate_pnl {α : Type} (p : OptionPosition α)
    (exit_price : ℚ) : PnlResult :=
  let price_move_pct :=
    if p.is_call then (exit_price - p.entry_price) / p.entry_price * 100
    else (p.entry_price - exit_price) / p.entry_price * 100
  let capped_move_pct := min (max price_move_pct 0) p.profit_cap_pct
  let payout_eth := p.nominal_eth * (capped_move_pct / 100)
  let net_pnl_eth := payout_eth - p.premium_paid_eth
  { price_move_pct := price_move_pct
    capped_move_pct := capped_move_pct
    payout_eth := payout_eth
    net_pnl_eth := net_pnl_eth
    return_on_premium_pct :=
      if p.premium_paid_eth > 0 then net_pnl_eth / p.premium_paid_eth * 100 else 0
    win := decide (net_pnl_eth > 0) }

/-- The `TradeLog` dataclass recording a trade and, once closed, its
outcome. -/
structure TradeLog (α : Type) where
  trade_id : α
  entry_time : ℕ
  instrument_type : String
  is_call : Bool
  signal_strength : ℤ
  entry_price : ℚ
  nominal_eth : ℚ
  premium_paid_eth : ℚ
  premium_paid_pct : ℚ
  exit_time : Option ℕ := none
  exit_price : ℚ := 0
  price_move_pct : ℚ := 0
  capped_move_pct : ℚ := 0
  payout_eth : ℚ := 0
  net_pnl_eth : ℚ := 0
  return_on_premium_pct : ℚ := 0
  capital_before : ℚ := 0
  capital_after : ℚ := 0
  portfolio_pct_before : ℚ := 0
  portfolio_pct_after : ℚ := 0
  concurrent_positions : ℕ := 0
  total_premium_deployed : ℚ := 0
  win : Bool := false
  exit_reason : String := ""
deriving DecidableEq

/-- The mutable state of a `CorrectedPortfolioBacktester` run; `next_id`
counts the uuid draws consumed so far. -/
structure BtState (α : Type) where
  capital_eth : ℚ
  initial_capital : ℚ
  positions : List (OptionPosition α)
  completed_trades : List (TradeLog α)
  daily_premium_spent : List (ℕ × ℚ)
  peak_capital : ℚ
  in_drawdown : Bool
  next_id : ℕ
deriving DecidableEq

/-- The state `__init__` builds. -/
def init_state {α : Type} (cfg : PortfolioConfig) : BtState α :=
  { capital_eth := cfg.initial_capital_eth
    initial_capital := cfg.initial_capital_eth
    positions := []
    completed_trades := []
    daily_premium_spent := []
    peak_capital := cfg.initial_capital_eth
    in_drawdown := false
    next_id := 0 }

/-- Python `dict.get(d, 0)` on the per-day premium-spend map. -/
def get_daily (m : List (ℕ × ℚ)) (d : ℕ) : ℚ := (m.lookup d).getD 0

/-- Python `dict[d] = v` on the per-day premium-spend map. -/
def set_daily : List (ℕ × ℚ) → ℕ → ℚ → List (ℕ × ℚ)
  | [], d, v => [(d, v)]
  | (k, x) :: rest, d, v =>
      if k = d then (d, v) :: rest else (k, x) :: set_daily rest d v

/-- Premium committed to the currently open positions,
`sum(p.premium_paid_eth for p in self.positions)`. -/
def premiums_sum {α : Type} (positions : List (OptionPosition α)) : ℚ :=
  (positions.map (fun p => p.premium_paid_eth)).sum

/-- Embeds `CorrectedPortfolioBacktester._process_signal`: the boolean is
whether a position was opened.  Checks, in source order: the concurrency
cap, a positive premium budget, a known instrument, the daily limit gate,
and the minimum-premium threshold; then sizes the nominal from the premium
budget, deducts the premium from capital and appends the position and its
trade-log entry. -/
def process_signal {α : Type} (cfg : PortfolioConfig) (ids : ℕ → α)
    (st : BtState α) (sig : Signal) (current_price : ℚ) (current_time : ℕ) :
    Bool × BtState α :=
  if st.positions.length ≥ cfg.max_concurrent_positions then (false, st)
  else
    let current_premium_exposure := premiums_sum st.positions
    let premium_budget :=
      cfg.get_premium_budget_eth st.capital_eth current_premium_exposure
    if premium_budget ≤ 0 then (false, st)
    else
      match OPTION_INSTRUMENTS sig.instrument with
      | none => (false, st)
      | some instrument =>
        let trade_date := current_time
        let daily_spent := get_daily st.daily_premium_spent trade_date
        let daily_limit := st.capital_eth * (cfg.max_daily_premium_pct / 100)
        if daily_spent ≥ daily_limit then (false, st)
        else
          let strength_multiplier :=
            if sig.strength ≠ 0 then min ((sig.strength.natAbs : ℚ) / 10) 1 else 1 / 2
          let adjusted_budget := premium_budget * strength_multiplier
          let min_premium := st.capital_eth * (1 / 1000)
          if adjusted_budget < min_premium then (false, st)
          else
            let nominal_eth0 := adjusted_budget / (instrument.premium_cost_pct / 100)
            let premium_eth0 := nominal_eth0 * (instrument.premium_cost_pct / 100)
            let nominal_eth :=
              if premium_eth0 > premium_budget then
                premium_budget / (instrument.premium_cost_pct / 100)
              else nominal_eth0
            let premium_eth :=
              if premium_eth0 > premium_budget then premium_budget else premium_eth0
            let capital2 := st.capital_eth - premium_eth
            let daily2 :=
              set_daily st.daily_premium_spent trade_date (daily_spent + premium_eth)
            let position : OptionPosition α :=
              { position_id := ids st.next_id
                entry_time := current_time
                expiry_time := current_time + instrument.duration_days
                instrument_name := sig.instrument
                is_call := decide (sig.signal > 0)
                entry_price := current_price
                nominal_eth := nominal_eth
                premium_paid_eth := premium_eth
                profit_cap_pct := instrument.profit_cap_pct
                signal_strength := sig.strength
                reason := sig.reason }
            let positions2 := st.positions ++ [position]
            let trade_log : TradeLog α :=
              { trade_id := position.position_id
                entry_time := current_time
                instrument_type := sig.instrument
                is_call := decide (sig.signal > 0)
                signal_strength := sig.strength
                entry_price := current_price
                nominal_eth := nominal_eth
                premium_paid_eth := premium_eth
                premium_paid_pct := premium_eth / st.initial_capital * 100
                capital_before := capital2 + premium_eth
                capital_after := capital2
                portfolio_pct_before := (capital2 + premium_eth) / st.initial_capital * 100
                portfolio_pct_after := capital2 / st.initial_capital * 100
                concurrent_positions := positions2.length
                total_premium_deployed := premiums_sum positions2 }
            (true,
              { st with
                capital_eth := capital2
                daily_premium_spent := daily2
                positions := positions2
                completed_trades := st.completed_trades ++ [trade_log]
                next_id := st.next_id + 1 })

/-- The trade-log update loop of `_close_position`: rewrite the first entry
whose `trade_id` matches, leave the rest untouched (`break` after the
match). -/
def update_first_trade {α : Type} [DecidableEq α] (pid : α)
    (f : TradeLog α → TradeLog α) : List (TradeLog α) → List (TradeLog α)
  | [] => []
  | t :: rest =>
      if t.trade_id = pid then f t :: rest
      else t :: update_first_trade pid f rest

/-- Python `list.remove`: drop the first element equal to `p` (dataclass
equality is field-wise). -/
def remove_first {α : Type} [DecidableEq α] (p : OptionPosition α) :
    List (OptionPosition α) → List (OptionPosition α)
  | [] => []
  | q :: rest => if q = p then rest else q :: remove_first p rest

/-- Embeds `CorrectedPortfolioBacktester._close_position`: credit the
payout, update the capital peak, write the P&L into the matching trade-log
entry, and drop the position from the active list. -/
def close_position {α : Type} [DecidableEq α] (st : BtState α)
    (position : OptionPosition α) (exit_price : ℚ) (exit_time : ℕ)
    (reason : String) : BtState α :=
  let pnl := position.calculate_pnl exit_price
  let capital2 := st.capital_eth + pnl.payout_eth
  let peak2 := if capital2 > st.peak_capital then capital2 else st.peak_capital
  let trades2 := update_first_trade position.position_id
    (fun t =>
      { t with
        exit_time := some exit_time
        exit_price := exit_price
        price_move_pct := pnl.price_move_pct
        capped_move_pct := pnl.capped_move_pct
        payout_eth := pnl.payout_eth
        net_pnl_eth := pnl.net_pnl_eth
        return_on_premium_pct := pnl.return_on_premium_pct
        capital_after := capital2
        portfolio_pct_after := capital2 / st.initial_capital * 100
        win := pnl.win
        exit_reason := reason })
    st.completed_trades
  { st with
    capital_eth := capital2
    peak_capital := peak2
    completed_trades := trades2
    positions := remove_first position st.positions }

/-- Embeds `_process_expirations`: snapshot the positions whose expiry has
arrived, then close each at the current price. -/
def process_expirations {α : Type} [DecidableEq α] (st : BtState α)
    (current_time : ℕ) (current_price : ℚ) : BtState α :=
  let expired := st.positions.filter (fun p => current_time ≥ p.expiry_time)
  expired.foldl (fun s p => close_position s p current_price current_time ("expiry")) st

/-- Embeds `_check_drawdown`: the boolean (skip this bar's signals) is true
exactly when the current drawdown exceeds `max_drawdown_pct`; the
`in_drawdown` flag is set on a breach and cleared only once the drawdown
falls below `0.7 × max_drawdown_pct`. -/
def check_drawdown {α : Type} (cfg : PortfolioConfig) (st : BtState α) :
    Bool × BtState α :=
  let current_drawdown := (st.peak_capital - st.capital_eth) / st.peak_capital * 100
  if current_drawdown > cfg.max_drawdown_pct then (true, { st with in_drawdown := true })
  else if st.in_drawdown ∧ current_drawdown < cfg.max_drawdown_pct * (7 / 10) then
    (false, { st with in_drawdown := false })
  else (false, st)

/-- The body of the `run_backtest` loop for one bar `(timestamp, close)`:
process expirations, check the drawdown gate (`continue` skips the signal
intake), then feed every signal whose timestamp matches and whose direction
is nonzero to `_process_signal`. -/
def step_bar {α : Type} [DecidableEq α] (cfg : PortfolioConfig)
    (signals : List Signal) (ids : ℕ → α) (st : BtState α) (bar : ℕ × ℚ) :
    BtState α :=
  let current_time := bar.1
  let current_price := bar.2
  let st1 := process_expirations st current_time current_price
  let checked := check_drawdown cfg st1
  if checked.1 then checked.2
  else
    signals.foldl
      (fun s sig =>
        if sig.timestamp = current_time ∧ sig.signal ≠ 0 then
          (process_signal cfg ids s sig current_price current_time).2
        else s)
      checked.2

/-- Embeds `_close_all_positions`: close the snapshot of remaining
positions at the last price. -/
def close_all_positions {α : Type} [DecidableEq α] (st : BtState α)
    (exit_price : ℚ) (exit_time : ℕ) : BtState α :=
  st.positions.foldl
    (fun s p => close_position s p exit_price exit_time ("end_of_data")) st

/-- The backtester states during a run: the initial state followed by the
state after each processed bar (before the final end-of-data close). -/
def bt_states {α : Type} [DecidableEq α] (cfg : PortfolioConfig)
    (signals : List Signal) (ids : ℕ → α) (bars : List (ℕ × ℚ)) :
    List (BtState α) :=
  bars.scanl (step_bar cfg signals ids) (init_state cfg)

/-- Embeds `run_backtest`: fold the bar loop over the price series, then
force-close everything at the last bar. -/
def run_backtest {α : Type} [DecidableEq α] (cfg : PortfolioConfig)
    (signals : List Signal) (ids : ℕ → α) (bars : List (ℕ × ℚ)) : BtState α :=
  let final := bars.foldl (step_bar cfg signals ids) (init_state cfg)
  match bars.getLast? with
  | some bar => close_all_positions final bar.2 bar.1
  | none => final

/-- Python 3 `round(x, n)`: round half to even at `n` decimal digits. -/
def py_round (x : ℚ) (n : ℕ) : ℚ :=
  let m : ℚ := (10 : ℚ) ^ n
  let y := x * m
  let fl : ℤ := ⌊y⌋
  let frac := y - (fl : ℚ)
  let r : ℤ :=
    if frac < 1 / 2 then fl
    else if frac > 1 / 2 then fl + 1
    else if fl % 2 = 0 then fl else fl + 1
  (r : ℚ) / m

/-- The dictionary `_format_trade_log` emits for one completed trade. -/
structure FormattedTrade (α : Type) where
  trade_id : α
  entry_time : ℕ
  exit_time : Option ℕ
  instrument : String
  type_tag : String
  signal_strength : ℤ
  entry_price : ℚ
  exit_price : ℚ
  nominal_eth : ℚ
  premium_paid_eth : ℚ
  premium_paid_pct : ℚ
  price_move_pct : ℚ
  capped_move_pct : ℚ
  payout_eth : ℚ
  net_pnl_eth : ℚ
  return_on_premium_pct : ℚ
  capital_before : ℚ
  capital_after : ℚ
  concurrent_positions : ℕ
  total_premium_deployed_eth : ℚ
  win : Bool
  exit_reason : String
deriving DecidableEq

/-- Embeds `_format_trade_log`, rounding exactly the fields the source
rounds. -/
def format_trade_log {α : Type} (t : TradeLog α) : FormattedTrade α :=
  { trade_id := t.trade_id
    entry_time := t.entry_time
    exit_time := t.exit_time
    instrument := t.instrument_type
    type_tag := if t.is_call then "CALL" else "PUT"
    signal_strength := t.signal_strength
    entry_price := py_round t.entry_price 2
    exit_price := py_round t.exit_price 2
    nominal_eth := py_round t.nominal_eth 3
    premium_paid_eth := py_round t.premium_paid_eth 4
    premium_paid_pct := py_round t.premium_paid_pct 2
    price_move_pct := py_round t.price_move_pct 2
    capped_move_pct := py_round t.capped_move_pct 2
    payout_eth := py_round t.payout_eth 4
    net_pnl_eth := py_round t.net_pnl_eth 4
    return_on_premium_pct := py_round t.return_on_premium_pct 1
    capital_before := py_round t.capital_before 3
    capital_after := py_round t.capital_after 3
    concurrent_positions := t.concurrent_positions
    total_premium_deployed_eth := py_round t.total_premium_deployed 4
    win := t.win
    exit_reason := t.exit_reason }

/-- The `trade_logs` list of `_calculate_results`: the completed trades
(those with an exit time), formatted, in recording order. -/
def trade_logs_output {α : Type} (st : BtState α) : List (FormattedTrade α) :=
  (st.completed_trades.filter (fun t => t.exit_time.isSome)).map format_trade_log

/-! ## Shared helper lemmas -/

/-- Every instrument of the catalog has a nonnegative profit cap. -/
theorem option_instruments_cap_nonneg (key : String) (inst : OptionInstrument)
    (h : OPTION_INSTRUMENTS key = some inst) : 0 ≤ inst.profit_cap_pct := by
  unfold OPTION_INSTRUMENTS at h
  split_ifs at h <;> simp only [Option.some.injEq] at h <;> rw [← h] <;> norm_num

/-- Appending one position adds its premium to the committed-premium sum. -/
theorem premiums_sum_append {α : Type} (l : List (OptionPosition α))
    (p : OptionPosition α) :
    premiums_sum (l ++ [p]) = premiums_sum l + p.premium_paid_eth := by
  simp [premiums_sum]

/-! ## C1: close accounting and the cap invariant -/

/-- C1: for every position closed by the backtester, the favorable-direction
move is `(exit−entry)/entry·100` for a CALL and `(entry−exit)/entry·100` for
a PUT, `capped_move_pct` clamps that move into `[0, profit_cap_pct]`, the
payout is `nominal × capped/100`, and net P&L is payout minus premium; with a
nonnegative cap this forces `0 ≤ capped_move_pct ≤ profit_cap_pct`, and every
position the backtester opens carries a cap from the catalog, hence a
nonnegative one. -/
theorem C1_close_accounting :
    (∀ (p : OptionPosition ℕ) (exit_price : ℚ),
      (p.is_call = true →
        (p.calculate_pnl exit_price).price_move_pct =
          (exit_price - p.entry_price) / p.entry_price * 100) ∧
      (p.is_call = false →
        (p.calculate_pnl exit_price).price_move_pct =
          (p.entry_price - exit_price) / p.entry_price * 100) ∧
      (p.calculate_pnl exit_price).capped_move_pct =
        min (max (p.calculate_pnl exit_price).price_move_pct 0) p.profit_cap_pct ∧
      (p.calculate_pnl exit_price).payout_eth =
        p.nominal_eth * ((p.calculate_pnl exit_price).capped_move_pct / 100) ∧
      (p.calculate_pnl exit_price).net_pnl_eth =
        (p.calculate_pnl exit_price).payout_eth - p.premium_paid_eth ∧
      (0 ≤ p.profit_cap_pct →
        0 ≤ (p.calculate_pnl exit_price).capped_move_pct ∧
        (p.calculate_pnl exit_price).capped_move_pct ≤ p.profit_cap_pct)) ∧
    (∀ (key : String) (inst : OptionInstrument),
      OPTION_INSTRUMENTS key = some inst → 0 ≤ inst.profit_cap_pct) ∧
    (∀ (cfg : PortfolioConfig) (ids : ℕ → ℕ) (st : BtState ℕ) (sig : Signal)
      (price : ℚ) (t : ℕ),
      (∀ p ∈ st.positions, 0 ≤ p.profit_cap_pct) →
      ∀ p ∈ ((process_signal cfg ids st sig price t).2).positions,
        0 ≤ p.profit_cap_pct) := by
  refine ⟨?_, option_instruments_cap_nonneg, ?_⟩
  · intro p exit_price
    refine ⟨?_, ?_, rfl, rfl, rfl, ?_⟩
    · intro hc
      simp [OptionPosition.calculate_pnl, hc]
    · intro hc
      simp [OptionPosition.calculate_pnl, hc]
    · intro hcap
      exact ⟨le_min (le_max_right _ _) hcap, min_le_right _ _⟩
  · intro cfg ids st sig price t hinv p hp
    simp only [process_signal] at hp
    repeat' split at hp
    all_goals
      first
        | exact hinv p hp
        | (rcases List.mem_append.mp hp with hmem | hmem
           · exact hinv p hmem
           · rw [List.mem_singleton] at hmem
             subst hmem
             exact option_instruments_cap_nonneg _ _ (by assumption))

/-- A concrete PUT position used to instantiate `C1_close_accounting`. -/
def posC1 : OptionPosition ℕ :=
  { position_id := 0
    entry_time := 0
    expiry_time := 7
    instrument_name := "7D_5PCT"
    is_call := false
    entry_price := 100
    nominal_eth := 2
    premium_paid_eth := 56 / 1000
    profit_cap_pct := 5
    signal_strength := -7 }

/-- C1 witness: the close-accounting theorem applied at a concrete PUT
position with a nonnegative cap. -/
theorem C1_close_accounting_witness :
    posC1.is_call = false ∧ (0 : ℚ) ≤ posC1.profit_cap_pct ∧
    (posC1.calculate_pnl 90).price_move_pct =
      (posC1.entry_price - 90) / posC1.entry_price * 100 ∧
    0 ≤ (posC1.calculate_pnl 90).capped_move_pct ∧
    (posC1.calculate_pnl 90).capped_move_pct ≤ posC1.profit_cap_pct :=
  ⟨rfl, by norm_num [posC1],
   ((C1_close_accounting.1 posC1 90).2.1 rfl),
   ((C1_close_accounting.1 posC1 90).2.2.2.2.2 (by norm_num [posC1])).1,
   ((C1_close_accounting.1 posC1 90).2.2.2.2.2 (by norm_num [posC1])).2⟩

/-! ## C7: the 7-day/5%-cap PUT scenario -/

/-- C7: for a PUT on the 7-day/5%-cap instrument (premium 2.8% of nominal),
entry 4472.60 and exit 4189.75 give a favorable move of exactly
`(4472.60 − 4189.75)/4472.60·100 = 141425/22363 ≈ 6.324%` (between 6.32 and
6.33), a capped move of exactly 5%, a payout of `nominal × 0.05` and a
positive net P&L of `nominal × (0.05 − 0.028)`. -/
theorem C7_scenario_a (p : OptionPosition ℕ)
    (hc : p.is_call = false) (he : p.entry_price = 22363 / 5)
    (hcap : p.profit_cap_pct = 5)
    (hprem : p.premium_paid_eth = p.nominal_eth * (28 / 10 / 100))
    (hpos : 0 < p.nominal_eth) :
    (p.calculate_pnl (16759 / 4)).price_move_pct = 141425 / 22363 ∧
    (632 / 100 : ℚ) < (p.calculate_pnl (16759 / 4)).price_move_pct ∧
    (p.calculate_pnl (16759 / 4)).price_move_pct < 633 / 100 ∧
    (p.calculate_pnl (16759 / 4)).capped_move_pct = 5 ∧
    (p.calculate_pnl (16759 / 4)).payout_eth = p.nominal_eth * (5 / 100) ∧
    (p.calculate_pnl (16759 / 4)).net_pnl_eth =
      p.nominal_eth * (5 / 100 - 28 / 1000) ∧
    0 < (p.calculate_pnl (16759 / 4)).net_pnl_eth := by
  have hmove : (p.calculate_pnl (16759 / 4)).price_move_pct = 141425 / 22363 := by
    simp [OptionPosition.calculate_pnl, hc, he]
    norm_num
  have hcapped : (p.calculate_pnl (16759 / 4)).capped_move_pct = 5 := by
    have h1 : (p.calculate_pnl (16759 / 4)).capped_move_pct =
        min (max (p.calculate_pnl (16759 / 4)).price_move_pct 0) p.profit_cap_pct := rfl
    rw [h1, hmove, hcap]
    norm_num
  have hpayout : (p.calculate_pnl (16759 / 4)).payout_eth = p.nominal_eth * (5 / 100) := by
    have h1 : (p.calculate_pnl (16759 / 4)).payout_eth =
        p.nominal_eth * ((p.calculate_pnl (16759 / 4)).capped_move_pct / 100) := rfl
    rw [h1, hcapped]
  have hnet : (p.calculate_pnl (16759 / 4)).net_pnl_eth =
      p.nominal_eth * (5 / 100 - 28 / 1000) := by
    have h1 : (p.calculate_pnl (16759 / 4)).net_pnl_eth =
        (p.calculate_pnl (16759 / 4)).payout_eth - p.premium_paid_eth := rfl
    rw [h1, hpayout, hprem]
    ring
  refine ⟨hmove, ?_, ?_, hcapped, hpayout, hnet, ?_⟩
  · rw [hmove]; norm_num
  · rw [hmove]; norm_num
  · rw [hnet]; nlinarith

/-! ## C10: empty and unrecognized condition groups -/

/-- C10: a condition group with an empty condition list evaluates false for
every combining operator (in particular `AND` does not follow the
vacuous-truth convention), and a group whose upper-cased operator is neither
`AND` nor `OR` evaluates false whatever its conditions. -/
theorem C10_group_semantics :
    (∀ (constants : String → Option ℚ) (op : String) (row : Row)
      (df : List Row) (idx : ℕ),
      evaluate_condition_group constants ⟨op, []⟩ row df idx = false) ∧
    (∀ (constants : String → Option ℚ) (g : ConditionGroup) (row : Row)
      (df : List Row) (idx : ℕ),
      py_upper g.operator ≠ "AND" → py_upper g.operator ≠ "OR" →
      evaluate_condition_group constants g row df idx = false) := by
  constructor
  · intro constants op row df idx
    simp [evaluate_condition_group]
  · intro constants g row df idx h1 h2
    simp [evaluate_condition_group, h1, h2]

/-- C10 witness: the group theorem applied to a concrete group whose
operator `xor` is unrecognized. -/
theorem C10_group_semantics_witness :
    py_upper ("xor") ≠ "AND" ∧ py_upper ("xor") ≠ "OR" ∧
    evaluate_condition_group (fun _ => none)
      ⟨"xor", [{ series1 := .num 1, operator := ">", series2_or_value := .num 0 }]⟩
      default_row [] 0 = false :=
  ⟨by decide, by decide,
   C10_group_semantics.2 (fun _ => none)
     ⟨"xor", [{ series1 := .num 1, operator := ">", series2_or_value := .num 0 }]⟩
     default_row [] 0 (by decide) (by decide)⟩

/-! ## C9: RSI when the average loss is zero -/

/-- C9 amended: the deque RSI of `src/api/index.py` returns 100 whenever the
window is filled and the average loss is zero, including the flat case where
the average gain is also zero; the pandas RSI of the standalone system
returns 100 for zero average loss only when the average gain is positive
(`RS = +inf`). -/
theorem C9_rsi_zero_loss :
    (∀ (prices : List ℚ) (period : ℕ),
      period + 1 ≤ prices.length →
      ApiIndicators.window_avg_loss prices period = 0 →
      ApiIndicators.rsi prices period = 100) ∧
    (∀ (prices : List ℚ) (period i : ℕ) (g : ℚ),
      StandaloneIndicators.rolling_mean (StandaloneIndicators.gain_raw prices)
        period prices.length i = some g →
      0 < g →
      StandaloneIndicators.rolling_mean (StandaloneIndicators.loss_raw prices)
        period prices.length i = some 0 →
      StandaloneIndicators.rsi_at prices period i = PdVal.val 100) := by
  constructor
  · intro prices period hlen hloss
    unfold ApiIndicators.rsi
    rw [if_neg (by omega)]
    simp [hloss]
  · intro prices period i g hg hgpos hl
    unfold StandaloneIndicators.rsi_at StandaloneIndicators.rs_at
    rw [hg, hl]
    simp [ne_of_gt hgpos]

/-- A flat 15-bar close series (period-14 RSI window filled, zero gains and
zero losses). -/
def pricesC9 : List ℚ := List.replicate 15 100

/-- C9 counterexample: on the flat series the pandas RSI row 14 has a filled
window with average loss zero, yet the computed value is NaN (`0/0`), not
100 — the claim fails for `full_laa_eva_system_standalone.py`'s RSI. -/
theorem C9_counterexample :
    StandaloneIndicators.rolling_mean (StandaloneIndicators.loss_raw pricesC9)
      14 pricesC9.length 14 = some 0 ∧
    StandaloneIndicators.rsi_at pricesC9 14 14 = PdVal.nan ∧
    PdVal.nan ≠ PdVal.val 100 := by
  refine ⟨by with_unfolding_all decide, by with_unfolding_all decide, by decide⟩

/-- A strictly rising 15-bar close series. -/
def pricesC9inc : List ℚ := (List.range 15).map (fun n => (100 : ℚ) + n)

/-- C9 witness: the amended theorem applied to the flat series (deque RSI)
and the rising series (pandas RSI). -/
theorem C9_rsi_zero_loss_witness :
    ApiIndicators.rsi pricesC9 14 = 100 ∧
    StandaloneIndicators.rsi_at pricesC9inc 14 14 = PdVal.val 100 :=
  ⟨C9_rsi_zero_loss.1 pricesC9 14 (by decide) (by with_unfolding_all decide),
   C9_rsi_zero_loss.2 pricesC9inc 14 14 1 (by with_unfolding_all decide)
     (by norm_num) (by with_unfolding_all decide)⟩

/-! ## C5: crossing operators -/

/-- C5: `crosses_above(a,b)` is false at index 0 whatever the values, false
whenever either previous value is undefined, and otherwise (all four values
defined, index ≥ 1) true exactly when `prev_a ≤ prev_b` and `a > b`;
`crosses_below` is the mirror. -/
theorem C5_crossing_semantics :
    (∀ (constants : String → Option ℚ) (a b : Operand) (lb ub : Option ℚ)
      (row : Row) (df : List Row) (op : String),
      op = "crosses_above" ∨ op = "crosses_below" →
      evaluate_condition constants
        { series1 := a, operator := op, series2_or_value := b,
          lower_bound := lb, upper_bound := ub } row df 0 = false) ∧
    (∀ (constants : String → Option ℚ) (a b : Operand) (lb ub : Option ℚ)
      (row : Row) (df : List Row) (idx : ℕ) (v1 v2 p1 p2 : ℚ),
      1 ≤ idx →
      get_value constants a row = some v1 →
      get_value constants b row = some v2 →
      get_value constants a (df.getD (idx - 1) default_row) = some p1 →
      get_value constants b (df.getD (idx - 1) default_row) = some p2 →
      evaluate_condition constants
        { series1 := a, operator := "crosses_above", series2_or_value := b,
          lower_bound := lb, upper_bound := ub } row df idx
        = decide (p1 ≤ p2 ∧ v1 > v2) ∧
      evaluate_condition constants
        { series1 := a, operator := "crosses_below", series2_or_value := b,
          lower_bound := lb, upper_bound := ub } row df idx
        = decide (p1 ≥ p2 ∧ v1 < v2)) ∧
    (∀ (constants : String → Option ℚ) (a b : Operand) (lb ub : Option ℚ)
      (row : Row) (df : List Row) (idx : ℕ) (v1 v2 : ℚ),
      1 ≤ idx →
      get_value constants a row = some v1 →
      get_value constants b row = some v2 →
      (get_value constants a (df.getD (idx - 1) default_row) = none ∨
       get_value constants b (df.getD (idx - 1) default_row) = none) →
      evaluate_condition constants
        { series1 := a, operator := "crosses_above", series2_or_value := b,
          lower_bound := lb, upper_bound := ub } row df idx = false ∧
      evaluate_condition constants
        { series1 := a, operator := "crosses_below", series2_or_value := b,
          lower_bound := lb, upper_bound := ub } row df idx = false) := by
  refine ⟨?_, ?_, ?_⟩
  · intro constants a b lb ub row df op hop
    rcases hop with rfl | rfl <;>
      · simp only [evaluate_condition]
        cases hga : get_value constants a row <;>
          cases hgb : get_value constants b row <;> rfl
  · intro constants a b lb ub row df idx v1 v2 p1 p2 hidx hv1 hv2 hp1 hp2
    constructor <;>
      · simp only [evaluate_condition, hv1, hv2]
        rw [if_neg (Nat.not_lt.mpr hidx)]
        simp only [hp1, hp2]
        rfl
  · intro constants a b lb ub row df idx v1 v2 hidx hv1 hv2 hprev
    rcases hprev with hpa | hpb
    · constructor <;>
        · simp only [evaluate_condition, hv1, hv2]
          rw [if_neg (Nat.not_lt.mpr hidx)]
          simp only [hpa]
          rfl
    · constructor <;>
        · simp only [evaluate_condition, hv1, hv2]
          rw [if_neg (Nat.not_lt.mpr hidx)]
          cases hpa : get_value constants a (df.getD (idx - 1) default_row) <;>
            simp only [hpa, hpb] <;> rfl

/-- Previous row of the C5 witness: column `x` holds 0. -/
def rowPrevC5 : Row := fun s => if s = "x" then some 0 else none

/-- Current row of the C5 witness: column `x` holds 2. -/
def rowCurC5 : Row := fun s => if s = "x" then some 2 else none

/-- The two-row frame of the C5 witness. -/
def dfC5 : List Row := [rowPrevC5, rowCurC5]

/-- C5 witness: the crossing theorem applied at index 1 of a concrete frame
where `x` moves from 0 to 2 across the literal 1. -/
theorem C5_crossing_semantics_witness :
    evaluate_condition (fun _ => none)
      { series1 := .str ("x"), operator := "crosses_above",
        series2_or_value := .num 1 } rowCurC5 dfC5 1 = true :=
  ((C5_crossing_semantics.2.1 (fun _ => none) (.str ("x")) (.num 1) none none
      rowCurC5 dfC5 1 2 1 0 1 (by decide) (by decide) (by decide)
      (by decide) (by decide)).1).trans (by decide)

/-! ## C4: first-match rule order -/

/-- The rule loop of `generate_signals` is exactly a first-match scan of the
declared rule list. -/
theorem first_matching_rule_eq_find (constants : String → Option ℚ)
    (rules : List SignalRule) (row : Row) (df : List Row) (idx : ℕ) :
    first_matching_rule constants rules row df idx =
      rules.find?
        (fun r => evaluate_condition_group constants r.conditions_group row df idx) := by
  induction rules with
  | nil => rfl
  | cons r rest ih =>
      by_cases h : evaluate_condition_group constants r.conditions_group row df idx
      · simp [first_matching_rule, h, List.find?_cons_of_pos]
      · simp only [first_matching_rule, if_neg h, ih]
        rw [List.find?_cons_of_neg]
        simpa using h

/-- C4: at every row the executor emits the action of the first rule (in
declared list order) whose condition group is true, or the default action
when none is; and permuting the rule list can change the emitted signal. -/
theorem C4_first_match_rule_order :
    (∀ (dsl : StrategyDsl) (df : List Row) (idx : ℕ), idx < df.length →
      (generate_signals dsl df)[idx]? =
        some (match dsl.signal_rules.find?
            (fun r => evaluate_condition_group dsl.constants r.conditions_group
              (df.getD idx default_row) df idx) with
          | some r =>
              { signal := r.action_on_true.strength
                profit_cap_pct := r.action_on_true.profit_cap_pct
                last_close := (df.getD idx default_row) ("close")
                rule_triggered := r.rule_name }
          | none =>
              { signal := dsl.default_action.strength
                profit_cap_pct := dsl.default_action.profit_cap_pct
                last_close := (df.getD idx default_row) ("close")
                rule_triggered := "DEFAULT" })) ∧
    (∃ (c : String → Option ℚ) (r1 r2 : SignalRule) (d : DslAction) (df : List Row),
      generate_signals ⟨c, [r1, r2], d⟩ df ≠ generate_signals ⟨c, [r2, r1], d⟩ df) := by
  constructor
  · intro dsl df idx h
    unfold generate_signals
    rw [List.getElem?_map, List.getElem?_range h, Option.map_some']
    unfold signal_at
    simp only [first_matching_rule_eq_find]
  · refine ⟨fun _ => none,
      ⟨"A", ⟨"AND", [{ series1 := .num 1, operator := ">", series2_or_value := .num 0 }]⟩, ⟨3, 5⟩⟩,
      ⟨"B", ⟨"AND", [{ series1 := .num 1, operator := ">", series2_or_value := .num 0 }]⟩, ⟨-3, 10⟩⟩,
      ⟨0, 5⟩, [default_row], ?_⟩
    decide

/-! ## C2: the premium-budget invariant -/

/-- C2 amended: the budget check runs against the capital measured before
the new premium is deducted, so what holds at the moment a position is
opened is `sum(premiums after opening) ≤ (max_total_premium_pct/100) ×
capital before the deduction`; the claimed invariant against the capital
held at the same instant (post-deduction) fails, see the counterexample. -/
theorem C2_budget_at_open (cfg : PortfolioConfig) (ids : ℕ → ℕ) (st : BtState ℕ)
    (sig : Signal) (price : ℚ) (t : ℕ) (st' : BtState ℕ)
    (h : process_signal cfg ids st sig price t = (true, st')) :
    premiums_sum st'.positions ≤
      st.capital_eth * (cfg.max_total_premium_pct / 100) := by
  have hBle : cfg.get_premium_budget_eth st.capital_eth (premiums_sum st.positions) ≤
      st.capital_eth * (cfg.max_total_premium_pct / 100) - premiums_sum st.positions := by
    unfold PortfolioConfig.get_premium_budget_eth
    exact min_le_left _ _
  simp only [process_signal] at h
  repeat' split at h
  all_goals
    first
      | exact (Bool.false_ne_true (congrArg Prod.fst h)).elim
      | (injection h with h1 h2
         subst h2
         simp only [premiums_sum_append]
         linarith [hBle])

/-- Configuration of the C2 counterexample: a 30% per-trade budget equal to
the 30% total-premium ceiling. -/
def cfgC2 : PortfolioConfig :=
  { initial_capital_eth := 10
    premium_per_trade_pct := 30
    max_daily_premium_pct := 100
    max_total_premium_pct := 30
    max_concurrent_positions := 10
    max_drawdown_pct := 25 }

/-- The single full-strength CALL signal of the C2 counterexample. -/
def sigC2 : Signal :=
  { timestamp := 0, signal := 1, strength := 10, instrument := "7D_5PCT" }

/-- The identity uuid-draw stream used by the concrete runs. -/
def idsNat : ℕ → ℕ := fun n => n

/-- The two-bar price series of the C2 counterexample. -/
def barsC2 : List (ℕ × ℚ) := [(0, 1000), (1, 1000)]

set_option maxRecDepth 100000 in
/-- C2 counterexample: one bar into the run the open premium (3 ETH) already
exceeds 30% of the capital held at that same time (30% of 7 ETH = 2.1), so
the claimed at-every-point invariant is false. -/
theorem C2_counterexample :
    premiums_sum
        (((bt_states cfgC2 [sigC2] idsNat barsC2).getD 1 (init_state cfgC2)).positions) >
      ((bt_states cfgC2 [sigC2] idsNat barsC2).getD 1 (init_state cfgC2)).capital_eth *
        (cfgC2.max_total_premium_pct / 100) := by
  with_unfolding_all decide

/-- Default configuration instance used by the C2 witness. -/
def cfgW2 : PortfolioConfig := {}

/-- The accepted signal of the C2 witness. -/
def sigW2 : Signal :=
  { timestamp := 0, signal := 1, strength := 10, instrument := "7D_5PCT" }

set_option maxRecDepth 100000 in
/-- C2 witness: the at-open budget bound applied to a concretely accepted
signal under the default configuration. -/
theorem C2_budget_at_open_witness :
    premiums_sum
        ((process_signal cfgW2 idsNat (init_state cfgW2) sigW2 1000 0).2).positions ≤
      (init_state cfgW2 : BtState ℕ).capital_eth * (cfgW2.max_total_premium_pct / 100) :=
  C2_budget_at_open cfgW2 idsNat (init_state cfgW2) sigW2 1000 0
    ((process_signal cfgW2 idsNat (init_state cfgW2) sigW2 1000 0).2)
    (by with_unfolding_all decide)

/-! ## C6: premium budget sizing and the daily limit -/

/-- C6 amended: an accepted signal's premium is bounded by
`min(remaining_total_premium_budget, per_trade_limit)` against current
capital; a non-positive budget, a day already at its limit, or an adjusted
budget below the 0.1% minimum threshold each skip the signal leaving the
state unchanged (non-fatal).  The daily limit is only this entry gate: the
new premium is not clamped to the remaining daily headroom, so one position
can push the day's spend above the daily limit (see the counterexample). -/
theorem C6_premium_budget (cfg : PortfolioConfig) (ids : ℕ → ℕ) (st : BtState ℕ)
    (sig : Signal) (price : ℚ) (t : ℕ) :
    (∀ st', process_signal cfg ids st sig price t = (true, st') →
      ∃ pos, st'.positions = st.positions ++ [pos] ∧
        pos.premium_paid_eth ≤
          min (st.capital_eth * (cfg.max_total_premium_pct / 100) -
                premiums_sum st.positions)
              (st.capital_eth * (cfg.premium_per_trade_pct / 100))) ∧
    (cfg.get_premium_budget_eth st.capital_eth (premiums_sum st.positions) ≤ 0 →
      process_signal cfg ids st sig price t = (false, st)) ∧
    (get_daily st.daily_premium_spent t ≥
        st.capital_eth * (cfg.max_daily_premium_pct / 100) →
      process_signal cfg ids st sig price t = (false, st)) ∧
    (cfg.get_premium_budget_eth st.capital_eth (premiums_sum st.positions) *
        (if sig.strength ≠ 0 then min ((sig.strength.natAbs : ℚ) / 10) 1 else 1 / 2) <
        st.capital_eth * (1 / 1000) →
      process_signal cfg ids st sig price t = (false, st)) := by
  have hBeq : cfg.get_premium_budget_eth st.capital_eth (premiums_sum st.positions) =
      min (st.capital_eth * (cfg.max_total_premium_pct / 100) - premiums_sum st.positions)
          (st.capital_eth * (cfg.premium_per_trade_pct / 100)) := rfl
  refine ⟨?_, ?_, ?_, ?_⟩
  · intro st' h
    simp only [process_signal] at h
    repeat' split at h
    all_goals
      first
        | exact (Bool.false_ne_true (congrArg Prod.fst h)).elim
        | (injection h with h1 h2
           subst h2
           refine ⟨_, rfl, ?_⟩
           simp only []
           linarith [hBeq])
  · intro hb
    by_cases h1 : st.positions.length ≥ cfg.max_concurrent_positions
    · simp [process_signal, h1]
    · simp [process_signal, h1, hb]
  · intro hd
    by_cases h1 : st.positions.length ≥ cfg.max_concurrent_positions
    · simp [process_signal, h1]
    · by_cases h2 : cfg.get_premium_budget_eth st.capital_eth (premiums_sum st.positions) ≤ 0
      · simp [process_signal, h1, h2]
      · cases hOI : OPTION_INSTRUMENTS sig.instrument with
        | none => simp [process_signal, h1, h2, hOI]
        | some inst => simp [process_signal, h1, h2, hOI, hd]
  · intro hm
    by_cases h1 : st.positions.length ≥ cfg.max_concurrent_positions
    · simp [process_signal, h1]
    · by_cases h2 : cfg.get_premium_budget_eth st.capital_eth (premiums_sum st.positions) ≤ 0
      · simp [process_signal, h1, h2]
      · cases hOI : OPTION_INSTRUMENTS sig.instrument with
        | none => simp [process_signal, h1, h2, hOI]
        | some inst =>
            by_cases h3 : get_daily st.daily_premium_spent t ≥
                st.capital_eth * (cfg.max_daily_premium_pct / 100)
            · simp [process_signal, h1, h2, hOI, h3]
            · simp only [process_signal, hOI]
              rw [if_neg h1, if_neg h2, if_neg h3, if_pos hm]

/-- Configuration of the C6 counterexample: 14% per-trade premium, 20%
daily ceiling. -/
def cfgC6 : PortfolioConfig :=
  { initial_capital_eth := 10
    premium_per_trade_pct := 14
    max_daily_premium_pct := 20
    max_total_premium_pct := 100
    max_concurrent_positions := 10
    max_drawdown_pct := 25 }

/-- The full-strength CALL signal of the C6 counterexample, sent twice on
the same day. -/
def sigC6 : Signal :=
  { timestamp := 0, signal := 1, strength := 10, instrument := "7D_5PCT" }

/-- The one-bar price series of the C6 counterexample. -/
def barsC6 : List (ℕ × ℚ) := [(0, 1000)]

set_option maxRecDepth 100000 in
/-- C6 counterexample: on day 0 two signals are accepted with premiums 1.4
and 1.204 ETH.  The second is sized by `min(remaining_total, per_trade)`
only — the remaining daily headroom at that moment was
`8.6·0.2 − 1.4 = 0.32 < 1.204` — and it lifts the day's spend to 2.604 ETH,
above the daily limit measured against the initial capital (2.0) and against
the current capital (≈1.48); so the budget is not
`min(per_trade, remaining_total, remaining_daily)` and a single position can
take the day's spend above the daily limit. -/
theorem C6_counterexample :
    (((bt_states cfgC6 [sigC6, sigC6] idsNat barsC6).getD 1 (init_state cfgC6)).positions.map
        (fun p => p.premium_paid_eth)) = [7 / 5, 301 / 250] ∧
    get_daily ((bt_states cfgC6 [sigC6, sigC6] idsNat barsC6).getD 1 (init_state cfgC6)).daily_premium_spent 0 =
      651 / 250 ∧
    (651 / 250 : ℚ) >
      cfgC6.initial_capital_eth * (cfgC6.max_daily_premium_pct / 100) ∧
    (651 / 250 : ℚ) >
      ((bt_states cfgC6 [sigC6, sigC6] idsNat barsC6).getD 1 (init_state cfgC6)).capital_eth *
        (cfgC6.max_daily_premium_pct / 100) ∧
    (301 / 250 : ℚ) > 43 / 5 * (cfgC6.max_daily_premium_pct / 100) - 7 / 5 := by
  refine ⟨?_, ?_, ?_, ?_, ?_⟩ <;> with_unfolding_all decide

/-- Configuration of the C6 witness (the defaults). -/
def cfgW6 : PortfolioConfig := {}

/-- The accepted signal of the C6 witness. -/
def sigW6 : Signal :=
  { timestamp := 0, signal := 1, strength := 10, instrument := "7D_5PCT" }

set_option maxRecDepth 100000 in
/-- C6 witness: the sizing bound applied to a concretely accepted signal. -/
theorem C6_premium_budget_witness :
    ∃ pos, ((process_signal cfgW6 idsNat (init_state cfgW6) sigW6 1000 0).2).positions =
        (init_state cfgW6 : BtState ℕ).positions ++ [pos] ∧
      pos.premium_paid_eth ≤
        min ((init_state cfgW6 : BtState ℕ).capital_eth * (cfgW6.max_total_premium_pct / 100) -
              premiums_sum (init_state cfgW6 : BtState ℕ).positions)
            ((init_state cfgW6 : BtState ℕ).capital_eth * (cfgW6.premium_per_trade_pct / 100)) :=
  (C6_premium_budget cfgW6 idsNat (init_state cfgW6) sigW6 1000 0).1
    ((process_signal cfgW6 idsNat (init_state cfgW6) sigW6 1000 0).2)
    (by with_unfolding_all decide)

/-! ## C3: the drawdown circuit breaker -/

/-- C3 amended: whether a bar's signals are skipped depends only on the
current drawdown exceeding `max_drawdown_pct` — the gate returned by
`_check_drawdown` is independent of the `in_drawdown` flag, which the
recovery threshold `0.7 × max_drawdown_pct` only clears for logging.  There
is no entry hysteresis: a signal arriving once drawdown is back at or below
`max_drawdown_pct` is processed even before capital recovers to
`peak × (1 − 0.7·max_drawdown_pct/100)` (see the counterexample). -/
theorem C3_drawdown_gate (cfg : PortfolioConfig) (st : BtState ℕ) :
    (check_drawdown cfg st).1 =
      decide ((st.peak_capital - st.capital_eth) / st.peak_capital * 100 >
        cfg.max_drawdown_pct) ∧
    (check_drawdown cfg { st with in_drawdown := true }).1 =
      (check_drawdown cfg { st with in_drawdown := false }).1 := by
  constructor
  · simp only [check_drawdown]
    split_ifs with h1 h2 <;> simp [h1]
  · simp only [check_drawdown]
    split_ifs <;> rfl

/-- Configuration of the C3 counterexample. -/
def cfgC3 : PortfolioConfig :=
  { initial_capital_eth := 10
    premium_per_trade_pct := 30
    max_daily_premium_pct := 100
    max_total_premium_pct := 100
    max_concurrent_positions := 10
    max_drawdown_pct := 25 }

/-- First signal of the C3 counterexample: a full-strength PUT at time 0. -/
def sigC3a : Signal :=
  { timestamp := 0, signal := -1, strength := -10, instrument := "7D_5PCT" }

/-- Second signal of the C3 counterexample: a full-strength CALL arriving at
time 7, after the drawdown breach and before recovery. -/
def sigC3b : Signal :=
  { timestamp := 7, signal := 1, strength := 10, instrument := "7D_5PCT" }

/-- Price series of the C3 counterexample: the PUT expires at time 7 at
price 2972/3, paying out 1 ETH, which lifts capital from 7 to 8 —
inside the band between breach (drawdown 20% ≤ 25%) and the recovery
threshold `peak × 0.825 = 8.25`. -/
def barsC3 : List (ℕ × ℚ) := [(0, 1000), (1, 1000), (7, 2972 / 3)]

set_option maxRecDepth 100000 in
/-- C3 counterexample: after bar 1 the run is in breached drawdown (capital
7, peak 10, drawdown 30% > 25%, flag set).  At bar 2 the drawdown is back to
20%, capital 8 is still below the recovery threshold 8.25 and the flag is
still set — yet the arriving signal opens a new position (entry time 7,
capital at entry 8); so entries are not blocked until recovery. -/
theorem C3_counterexample :
    ((bt_states cfgC3 [sigC3a, sigC3b] idsNat barsC3).getD 2 (init_state cfgC3)).in_drawdown = true ∧
    ((bt_states cfgC3 [sigC3a, sigC3b] idsNat barsC3).getD 2 (init_state cfgC3)).capital_eth = 7 ∧
    ((bt_states cfgC3 [sigC3a, sigC3b] idsNat barsC3).getD 2 (init_state cfgC3)).peak_capital = 10 ∧
    ((bt_states cfgC3 [sigC3a, sigC3b] idsNat barsC3).getD 3 (init_state cfgC3)).in_drawdown = true ∧
    (((bt_states cfgC3 [sigC3a, sigC3b] idsNat barsC3).getD 3 (init_state cfgC3)).positions.map
        (fun p => p.entry_time)) = [7] ∧
    (((bt_states cfgC3 [sigC3a, sigC3b] idsNat barsC3).getD 3 (init_state cfgC3)).completed_trades.map
        (fun t => t.capital_before)) = [10, 8] ∧
    (8 : ℚ) <
      ((bt_states cfgC3 [sigC3a, sigC3b] idsNat barsC3).getD 2 (init_state cfgC3)).peak_capital *
        (1 - cfgC3.max_drawdown_pct * (7 / 10) / 100) := by
  refine ⟨?_, ?_, ?_, ?_, ?_, ?_, ?_⟩ <;> with_unfolding_all decide

/-- The one-rule strategy of the C4 witness. -/
def dslC4 : StrategyDsl :=
  { constants := fun _ => none
    signal_rules :=
      [⟨"A", ⟨"AND", [{ series1 := .num 1, operator := ">", series2_or_value := .num 0 }]⟩, ⟨3, 5⟩⟩]
    default_action := ⟨0, 5⟩ }

/-- C4 witness: the first-match theorem applied to a one-row frame and a
one-rule strategy whose rule fires. -/
theorem C4_first_match_rule_order_witness :
    (generate_signals dslC4 [default_row])[0]? =
      some { signal := 3, profit_cap_pct := 5, last_close := none, rule_triggered := "A" } :=
  (C4_first_match_rule_order.1 dslC4 [default_row] 0 (by decide)).trans (by decide)

/-! ## C8: determinism of the trade-log output -/

/-- Rename a position's uuid draw. -/
def map_position {α β : Type} (f : α → β) (p : OptionPosition α) : OptionPosition β :=
  { position_id := f p.position_id
    entry_time := p.entry_time
    expiry_time := p.expiry_time
    instrument_name := p.instrument_name
    is_call := p.is_call
    entry_price := p.entry_price
    nominal_eth := p.nominal_eth
    premium_paid_eth := p.premium_paid_eth
    profit_cap_pct := p.profit_cap_pct
    signal_strength := p.signal_strength
    reason := p.reason }

/-- Rename a trade-log entry's uuid draw. -/
def map_trade {α β : Type} (f : α → β) (t : TradeLog α) : TradeLog β :=
  { trade_id := f t.trade_id
    entry_time := t.entry_time
    instrument_type := t.instrument_type
    is_call := t.is_call
    signal_strength := t.signal_strength
    entry_price := t.entry_price
    nominal_eth := t.nominal_eth
    premium_paid_eth := t.premium_paid_eth
    premium_paid_pct := t.premium_paid_pct
    exit_time := t.exit_time
    exit_price := t.exit_price
    price_move_pct := t.price_move_pct
    capped_move_pct := t.capped_move_pct
    payout_eth := t.payout_eth
    net_pnl_eth := t.net_pnl_eth
    return_on_premium_pct := t.return_on_premium_pct
    capital_before := t.capital_before
    capital_after := t.capital_after
    portfolio_pct_before := t.portfolio_pct_before
    portfolio_pct_after := t.portfolio_pct_after
    concurrent_positions := t.concurrent_positions
    total_premium_deployed := t.total_premium_deployed
    win := t.win
    exit_reason := t.exit_reason }

/-- Rename the uuid draws of a backtester state. -/
def map_state {α β : Type} (f : α → β) (st : BtState α) : BtState β :=
  { capital_eth := st.capital_eth
    initial_capital := st.initial_capital
    positions := st.positions.map (map_position f)
    completed_trades := st.completed_trades.map (map_trade f)
    daily_premium_spent := st.daily_premium_spent
    peak_capital := st.peak_capital
    in_drawdown := st.in_drawdown
    next_id := st.next_id }

/-- Rename a formatted trade's uuid draw. -/
def map_formatted {α β : Type} (f : α → β) (t : FormattedTrade α) : FormattedTrade β :=
  { trade_id := f t.trade_id
    entry_time := t.entry_time
    exit_time := t.exit_time
    instrument := t.instrument
    type_tag := t.type_tag
    signal_strength := t.signal_strength
    entry_price := t.entry_price
    exit_price := t.exit_price
    nominal_eth := t.nominal_eth
    premium_paid_eth := t.premium_paid_eth
    premium_paid_pct := t.premium_paid_pct
    price_move_pct := t.price_move_pct
    capped_move_pct := t.capped_move_pct
    payout_eth := t.payout_eth
    net_pnl_eth := t.net_pnl_eth
    return_on_premium_pct := t.return_on_premium_pct
    capital_before := t.capital_before
    capital_after := t.capital_after
    concurrent_positions := t.concurrent_positions
    total_premium_deployed_eth := t.total_premium_deployed_eth
    win := t.win
    exit_reason := t.exit_reason }

/-- Forget a formatted trade's uuid draw, keeping every other field. -/
def strip_trade {α : Type} (t : FormattedTrade α) : FormattedTrade Unit :=
  map_formatted (fun _ => ()) t

/-- Renaming the draw does not change the P&L of a position. -/
theorem calculate_pnl_map {α β : Type} (f : α → β) (p : OptionPosition α)
    (e : ℚ) : (map_position f p).calculate_pnl e = p.calculate_pnl e := rfl

/-- Renaming draws preserves the committed-premium sum. -/
theorem premiums_sum_map {α β : Type} (f : α → β) (l : List (OptionPosition α)) :
    premiums_sum (l.map (map_position f)) = premiums_sum l := by
  induction l with
  | nil => rfl
  | cons p rest ih => simp_all [premiums_sum, map_position]

/-- Renaming draws injectively is injective on positions. -/
theorem map_position_injective {α β : Type} (f : α → β)
    (hf : Function.Injective f) : Function.Injective (map_position f) := by
  intro p q h
  cases p
  cases q
  simp only [map_position, OptionPosition.mk.injEq] at h
  simp only [OptionPosition.mk.injEq]
  exact ⟨hf h.1, h.2⟩

/-- Python `list.remove` commutes with an injective draw renaming. -/
theorem remove_first_map {α β : Type} [DecidableEq α] [DecidableEq β] (f : α → β)
    (hf : Function.Injective f) (p : OptionPosition α)
    (l : List (OptionPosition α)) :
    remove_first (map_position f p) (l.map (map_position f)) =
      (remove_first p l).map (map_position f) := by
  induction l with
  | nil => rfl
  | cons q rest ih =>
      simp only [List.map_cons, remove_first]
      by_cases hq : q = p
      · simp [hq]
      · have hq2 : ¬(map_position f q = map_position f p) :=
          fun hc => hq (map_position_injective f hf hc)
        simp [hq, hq2, ih]

/-- The first-match trade-log rewrite commutes with an injective draw
renaming, given that the per-entry update does. -/
theorem update_first_trade_map {α β : Type} [DecidableEq α] [DecidableEq β]
    (f : α → β) (hf : Function.Injective f) (pid : α)
    (g : TradeLog α → TradeLog α) (g2 : TradeLog β → TradeLog β)
    (hg : ∀ t, g2 (map_trade f t) = map_trade f (g t))
    (l : List (TradeLog α)) :
    update_first_trade (f pid) g2 (l.map (map_trade f)) =
      (update_first_trade pid g l).map (map_trade f) := by
  induction l with
  | nil => rfl
  | cons t rest ih =>
      simp only [List.map_cons, update_first_trade]
      by_cases ht : t.trade_id = pid
      · have ht2 : (map_trade f t).trade_id = f pid := by simp [map_trade, ht]
        simp [ht, ht2, hg]
      · have ht2 : ¬((map_trade f t).trade_id = f pid) := by
          simp only [map_trade]
          exact fun hc => ht (hf hc)
        simp [ht, ht2, ih]

/-- Closing a position commutes with an injective draw renaming. -/
theorem close_position_map {α β : Type} [DecidableEq α] [DecidableEq β]
    (f : α → β) (hf : Function.Injective f) (st : BtState α)
    (p : OptionPosition α) (e : ℚ) (tm : ℕ) (r : String) :
    close_position (map_state f st) (map_position f p) e tm r =
      map_state f (close_position st p e tm r) := by
  simp only [close_position, map_state, calculate_pnl_map]
  congr 1
  · exact remove_first_map f hf p st.positions
  · exact update_first_trade_map f hf p.position_id _ _ (fun t => rfl) st.completed_trades

/-- Folding position closes commutes with an injective draw renaming. -/
theorem foldl_close_map {α β : Type} [DecidableEq α] [DecidableEq β]
    (f : α → β) (hf : Function.Injective f) (l : List (OptionPosition α))
    (st : BtState α) (pr : ℚ) (tm : ℕ) (r : String) :
    (l.map (map_position f)).foldl (fun s p => close_position s p pr tm r)
        (map_state f st) =
      map_state f (l.foldl (fun s p => close_position s p pr tm r) st) := by
  induction l generalizing st with
  | nil => rfl
  | cons q rest ih =>
      simp only [List.map_cons, List.foldl_cons]
      rw [close_position_map f hf]
      exact ih _

/-- Expiry processing commutes with an injective draw renaming. -/
theorem process_expirations_map {α β : Type} [DecidableEq α] [DecidableEq β]
    (f : α → β) (hf : Function.Injective f) (st : BtState α) (tm : ℕ) (pr : ℚ) :
    process_expirations (map_state f st) tm pr =
      map_state f (process_expirations st tm pr) := by
  simp only [process_expirations]
  have hfil : (st.positions.map (map_position f)).filter
      (fun p => decide (tm ≥ p.expiry_time)) =
      (st.positions.filter (fun p => decide (tm ≥ p.expiry_time))).map (map_position f) := by
    induction st.positions with
    | nil => rfl
    | cons q rest ih =>
        by_cases hq : tm ≥ q.expiry_time
        · simp [List.filter_cons, map_position, hq, ih]
        · simp [List.filter_cons, map_position, hq, ih]
  have hms : (map_state f st).positions =
      st.positions.map (map_position f) := rfl
  rw [hms, hfil]
  exact foldl_close_map f hf _ st pr tm ("expiry")

/-- The drawdown check commutes with a draw renaming. -/
theorem check_drawdown_map {α β : Type} (f : α → β) (cfg : PortfolioConfig)
    (st : BtState α) :
    check_drawdown cfg (map_state f st) =
      ((check_drawdown cfg st).1, map_state f (check_drawdown cfg st).2) := by
  simp only [check_drawdown, map_state]
  split_ifs <;> rfl

/-- Signal intake commutes with a draw renaming (no injectivity needed:
the draw is only stored, never compared). -/
theorem process_signal_map {α β : Type} (f : α → β) (cfg : PortfolioConfig)
    (ids : ℕ → α) (st : BtState α) (sig : Signal) (price : ℚ) (tm : ℕ) :
    process_signal cfg (fun n => f (ids n)) (map_state f st) sig price tm =
      ((process_signal cfg ids st sig price tm).1,
        map_state f (process_signal cfg ids st sig price tm).2) := by
  simp only [process_signal, map_state, List.length_map, premiums_sum_map]
  cases hOI : OPTION_INSTRUMENTS sig.instrument with
  | none => split_ifs <;> rfl
  | some inst =>
      split_ifs <;>
        simp [map_state, map_position, map_trade, List.map_append, premiums_sum_map,
          premiums_sum_append]

/-- One bar of the run loop commutes with an injective draw renaming. -/
theorem step_bar_map {α β : Type} [DecidableEq α] [DecidableEq β]
    (f : α → β) (hf : Function.Injective f) (cfg : PortfolioConfig)
    (signals : List Signal) (ids : ℕ → α) (st : BtState α) (bar : ℕ × ℚ) :
    step_bar cfg signals (fun n => f (ids n)) (map_state f st) bar =
      map_state f (step_bar cfg signals ids st bar) := by
  simp only [step_bar]
  rw [process_expirations_map f hf, check_drawdown_map]
  split_ifs
  · rfl
  · generalize process_expirations st bar.1 bar.2 = st1
    generalize (check_drawdown cfg st1).2 = st2
    induction signals generalizing st2 with
    | nil => rfl
    | cons sg rest ih =>
        simp only [List.foldl_cons]
        by_cases hs : sg.timestamp = bar.1 ∧ sg.signal ≠ 0
        · rw [if_pos hs, if_pos hs, process_signal_map]
          exact ih _
        · rw [if_neg hs, if_neg hs]
          exact ih _

/-- Ordering the end-of-data close over a snapshot commutes with an
injective draw renaming. -/
theorem close_all_positions_map {α β : Type} [DecidableEq α] [DecidableEq β]
    (f : α → β) (hf : Function.Injective f) (st : BtState α)
    (pr : ℚ) (tm : ℕ) :
    close_all_positions (map_state f st) pr tm =
      map_state f (close_all_positions st pr tm) := by
  simp only [close_all_positions]
  have hms : (map_state f st).positions =
      st.positions.map (map_position f) := rfl
  rw [hms]
  exact foldl_close_map f hf _ st pr tm ("end_of_data")

/-- A whole backtest run with draw stream `f ∘ ids` is the `f`-renaming of
the run with draw stream `ids`, for injective `f`. -/
theorem run_backtest_map {α β : Type} [DecidableEq α] [DecidableEq β]
    (f : α → β) (hf : Function.Injective f) (cfg : PortfolioConfig)
    (signals : List Signal) (ids : ℕ → α) (bars : List (ℕ × ℚ)) :
    run_backtest cfg signals (fun n => f (ids n)) bars =
      map_state f (run_backtest cfg signals ids bars) := by
  simp only [run_backtest]
  have hfold : ∀ (l : List (ℕ × ℚ)) (st : BtState α),
      l.foldl (step_bar cfg signals (fun n => f (ids n))) (map_state f st) =
        map_state f (l.foldl (step_bar cfg signals ids) st) := by
    intro l
    induction l with
    | nil => intro st; rfl
    | cons b rest ih =>
        intro st
        simp only [List.foldl_cons]
        rw [step_bar_map f hf]
        exact ih _
  have hinit : (init_state cfg : BtState β) = map_state f (init_state cfg) := rfl
  rw [hinit, hfold]
  cases bars.getLast? with
  | none => rfl
  | some bar => exact close_all_positions_map f hf _ bar.2 bar.1

/-- Renaming draws renames the formatted trade-log output entrywise. -/
theorem trade_logs_output_map {α β : Type} [DecidableEq α] [DecidableEq β]
    (f : α → β) (st : BtState α) :
    trade_logs_output (map_state f st) =
      (trade_logs_output st).map (map_formatted f) := by
  simp only [trade_logs_output, map_state]
  induction st.completed_trades with
  | nil => rfl
  | cons t rest ih =>
      by_cases ht : t.exit_time.isSome
      · have ht2 : (map_trade f t).exit_time.isSome := ht
        simp only [List.map_cons, List.filter_cons, ht, ht2, if_pos, List.map_cons] at ih ⊢
        simp [ih]
        rfl
      · have ht2 : ¬((map_trade f t).exit_time.isSome) := ht
        simp only [List.map_cons, List.filter_cons] at ih ⊢
        simp only [Bool.not_eq_true] at ht ht2
        simp [ht, ht2, ih]

/-- C8 amended: for any two injective uuid-draw streams — collisions apart,
what `uuid.uuid4()` provides — the two runs' formatted trade-log outputs
agree on every field except `trade_id`; the output is a deterministic
function of the strategy, configuration and price series once the random
trade identifiers are stripped.  Byte-identical output (the original claim)
fails because `trade_id` is a fresh random draw each run, see the
counterexample. -/
theorem C8_deterministic_up_to_ids {α β : Type} [DecidableEq α] [DecidableEq β]
    (cfg : PortfolioConfig) (signals : List Signal) (bars : List (ℕ × ℚ))
    (ids1 : ℕ → α) (ids2 : ℕ → β)
    (h1 : Function.Injective ids1) (h2 : Function.Injective ids2) :
    (trade_logs_output (run_backtest cfg signals ids1 bars)).map strip_trade =
      (trade_logs_output (run_backtest cfg signals ids2 bars)).map strip_trade := by
  have e1 : run_backtest cfg signals ids1 bars =
      map_state ids1 (run_backtest cfg signals (fun n => n) bars) :=
    run_backtest_map ids1 h1 cfg signals (fun n => n) bars
  have e2 : run_backtest cfg signals ids2 bars =
      map_state ids2 (run_backtest cfg signals (fun n => n) bars) :=
    run_backtest_map ids2 h2 cfg signals (fun n => n) bars
  rw [e1, e2, trade_logs_output_map, trade_logs_output_map, List.map_map, List.map_map]
  have hc1 : strip_trade ∘ map_formatted ids1 =
      (strip_trade : FormattedTrade ℕ → FormattedTrade Unit) := funext (fun t => rfl)
  have hc2 : strip_trade ∘ map_formatted ids2 =
      (strip_trade : FormattedTrade ℕ → FormattedTrade Unit) := funext (fun t => rfl)
  rw [hc1, hc2]

/-- Configuration of the C8 counterexample (the defaults). -/
def cfgC8 : PortfolioConfig := {}

/-- The single signal of the C8 counterexample. -/
def sigC8 : Signal :=
  { timestamp := 0, signal := 1, strength := 10, instrument := "7D_5PCT" }

/-- The two-bar series of the C8 counterexample. -/
def barsC8 : List (ℕ × ℚ) := [(0, 100), (1, 95)]

/-- One possible uuid-draw stream. -/
def idsC8a : ℕ → ℕ := fun n => 2 * n

/-- Another possible uuid-draw stream of the second run. -/
def idsC8b : ℕ → ℕ := fun n => 2 * n + 1

set_option maxRecDepth 100000 in
/-- C8 counterexample: two runs on identical strategy, configuration and
prices, differing only in the random uuid draws, produce different
`trade_logs` output (the `trade_id` field differs), so the output is not
byte-identical across runs. -/
theorem C8_counterexample :
    trade_logs_output (run_backtest cfgC8 [sigC8] idsC8a barsC8) ≠
      trade_logs_output (run_backtest cfgC8 [sigC8] idsC8b barsC8) := by
  with_unfolding_all decide

/-- C8 witness: the determinism-up-to-ids theorem applied to the two
concrete draw streams of the counterexample run. -/
theorem C8_deterministic_up_to_ids_witness :
    (trade_logs_output (run_backtest cfgC8 [sigC8] idsC8a barsC8)).map strip_trade =
      (trade_logs_output (run_backtest cfgC8 [sigC8] idsC8b barsC8)).map strip_trade :=
  C8_deterministic_up_to_ids cfgC8 [sigC8] barsC8 idsC8a idsC8b
    (fun a b h => by simp only [idsC8a] at h; omega)
    (fun a b h => by simp only [idsC8b] at h; omega)

/-- The concrete scenario-A position: a 7-day/5%-cap PUT of nominal 1 ETH
entered at 4472.60 with premium 2.8% of nominal. -/
def posC7 : OptionPosition ℕ :=
  { position_id := 0
    entry_time := 0
    expiry_time := 7
    instrument_name := "7D_5PCT"
    is_call := false
    entry_price := 22363 / 5
    nominal_eth := 1
    premium_paid_eth := 28 / 1000
    profit_cap_pct := 5
    signal_strength := -7 }

/-- C7 witness: the scenario-A theorem applied at the concrete position. -/
theorem C7_scenario_a_witness :
    (posC7.calculate_pnl (16759 / 4)).capped_move_pct = 5 ∧
    0 < (posC7.calculate_pnl (16759 / 4)).net_pnl_eth :=
  ⟨(C7_scenario_a posC7 rfl rfl rfl (by norm_num [posC7]) (by norm_num [posC7])).2.2.2.1,
   (C7_scenario_a posC7 rfl rfl rfl (by norm_num [posC7]) (by norm_num [posC7])).2.2.2.2.2.2⟩
